import Mathlib

/-!
Verification of the SVG QR-label generator (src/main.py, live code: the
`create_svg_with_qr` pipeline, lines 232-337; the two commented-out PDF
variants are dead code).

The embedding mirrors the Python source:
* a CSV row (as produced by `csv.DictReader`) is a finite map from field
  names to values, embedded as an association list;
* Python exceptions are embedded as an explicit error type, and every
  fallible function returns `Except PyError _`;
* the external `qrcode` library (not part of this repository) is embedded
  from its documented behaviour for the configuration used by the source
  (`version=1`, `fit=True`, `ERROR_CORRECT_L`): `make(fit=True)` selects the
  smallest version that holds the payload and raises `DataOverflowError`
  when even version 40 cannot (capacities at error-correction level L:
  7089 numeric / 4296 alphanumeric / 2953 bytes); the empty payload is
  accepted (the mode regex of `qrcode.util.optimal_mode` matches the empty
  string, which then fits in version 1).  The produced base64 PNG is a
  deterministic function of the payload and is kept abstract as a tagged
  string;
* the `svgwrite` drawing is embedded as its list of added elements plus the
  canvas size; `tostring` is a concrete serialisation (its exact text is
  irrelevant to the claims, only that one canvas serialises to one string).
-/

/-- A CSV row from `csv.DictReader`: field name to field value.  Headers are
distinct, so an association list with first-match lookup embeds the dict. -/
abbrev Record := List (String × String)

/-- Python `row[k]` lookup, as an `Option`: `none` embeds a `KeyError`. -/
def Record.get? (row : Record) (k : String) : Option String :=
  (row.find? (fun p => p.1 == k)).map (fun p => p.2)

/-- Python `row.get(k, dflt)` (src/main.py line 293). -/
def Record.getD (row : Record) (k dflt : String) : String :=
  match Record.get? row k with
  | some v => v
  | none => dflt

/-- The Python exceptions that the pipeline can raise: `KeyError` from
`row["lid"]`, `ValueError("Unsupported file type")` from the input-type
dispatch, and `qrcode.exceptions.DataOverflowError` from `make(fit=True)`. -/
inductive PyError
  | keyError (key : String)
  | valueError (msg : String)
  | dataOverflowError

/-- QR encodation modes as chosen by `qrcode.util.optimal_mode`. -/
inductive QrMode
  | numeric
  | alphaNumeric
  | byte

/-- The QR alphanumeric character set (`qrcode.util.ALPHA_NUM`). -/
def ALPHA_NUM : String := "0123456789ABCDEFGHIJKLMNOPQRSTUVWXYZ $%*+-./:"

/-- ASCII digit test (`bytes.isdigit` on the payload's bytes). -/
def qrIsDigit (c : Char) : Bool := decide ('0' ≤ c) && decide (c ≤ '9')

/-- Membership in the QR alphanumeric character set. -/
def qrAlphaNum (c : Char) : Bool := ALPHA_NUM.toList.contains c

/-- Mode selection of `qrcode.util.optimal_mode`: numeric for a non-empty
all-digit payload, alphanumeric when every character is in `ALPHA_NUM`
(the empty payload lands here), byte otherwise. -/
def qrMode (s : String) : QrMode :=
  if s.length ≠ 0 ∧ s.toList.all qrIsDigit then QrMode.numeric
  else if s.toList.all qrAlphaNum then QrMode.alphaNumeric
  else QrMode.byte

/-- UTF-8 byte length of one character. -/
def charUtf8Len (c : Char) : ℕ :=
  if c.toNat < 128 then 1
  else if c.toNat < 2048 then 2
  else if c.toNat < 65536 then 3
  else 4

/-- UTF-8 byte length of a string (the payload is encoded to bytes before
being measured against the symbol capacity). -/
def strUtf8Len (s : String) : ℕ := (s.toList.map charUtf8Len).foldr (· + ·) 0

/-- The length that is measured against the capacity table: characters for
numeric/alphanumeric mode (ASCII only, so equal to bytes), bytes for byte
mode. -/
def qrPayloadLen (s : String) : ℕ :=
  match qrMode s with
  | QrMode.byte => strUtf8Len s
  | _ => s.length

/-- Maximum payload per mode for a version-40 symbol at error-correction
level L — the largest symbol `make(fit=True)` may select.  Beyond this,
`qrcode` raises `DataOverflowError`. -/
def qrCapacity : QrMode → ℕ
  | QrMode.numeric => 7089
  | QrMode.alphaNumeric => 4296
  | QrMode.byte => 2953

/-- Stand-in for the base64-encoded PNG bytes of the rendered symbol: the
`qrcode`/PIL/base64 pipeline is a deterministic function of the payload, and
no claim inspects the bytes themselves. -/
def qrPngBase64 (data : String) : String := "iVBOR:" ++ data

/-- Embeds `generate_qr_code_base64` (src/main.py lines 243-257): builds the
QR symbol via the external `qrcode` library and returns its PNG as base64.
The wrapper performs no validation of its own; the only failure is the
library's `DataOverflowError` when the payload exceeds the maximum symbol
capacity.  The empty payload is accepted by the library. -/
def generate_qr_code_base64 (data : String) : Except PyError String :=
  if qrPayloadLen data > qrCapacity (qrMode data) then
    Except.error PyError.dataOverflowError
  else
    Except.ok (qrPngBase64 data)

/-- Conversion factor for centimeters to pixels (src/main.py line 240). -/
def CM_TO_PIXELS : ℚ := 37.795275590551

/-- Padding from left for the QR image (src/main.py line 282). -/
def qr_x : ℚ := 5

/-- Padding from top for the QR image (src/main.py line 283). -/
def qr_y : ℚ := 5

/-- Size of the QR code (src/main.py line 284). -/
def qr_size : ℚ := 1 * CM_TO_PIXELS

/-- Font size for text (src/main.py line 290). -/
def font_size : ℚ := 12

/-- Position text to the right of the QR code (src/main.py line 288). -/
def text_x : ℚ := qr_x + qr_size + 10

/-- Initial text position (src/main.py line 289). -/
def text_y : ℚ := qr_y + 10

/-- One element added to the `svgwrite` drawing: `dwg.image(...)` or
`dwg.text(...)`.  The source passes the font size as the string
`f-string of font_size + "px"`; it is kept as the underlying number. -/
inductive SvgElement
  | image (href : String) (insert : ℚ × ℚ) (size : ℚ × ℚ)
  | text (content : String) (insert : ℚ × ℚ) (fontSize : ℚ) (fill : String)

/-- Is this element a text element? -/
def SvgElement.isTextElem : SvgElement → Bool
  | SvgElement.text _ _ _ _ => true
  | SvgElement.image _ _ _ => false

/-- Is this element an embedded image element? -/
def SvgElement.isImageElem : SvgElement → Bool
  | SvgElement.image _ _ _ => true
  | SvgElement.text _ _ _ _ => false

/-- One `svgwrite.Drawing`: its canvas size and the elements added to it,
in insertion order. -/
structure SvgLabel where
  size : ℚ × ℚ
  elements : List SvgElement

/-- The text elements of a label, in insertion order. -/
def labelTexts (l : SvgLabel) : List SvgElement :=
  l.elements.filter SvgElement.isTextElem

/-- The embedded image elements of a label, in insertion order. -/
def labelImages (l : SvgLabel) : List SvgElement :=
  l.elements.filter SvgElement.isImageElem

/-- Layout view of a label: position and content (href for the symbol,
text for a line) of every element, for layout-equivalence statements. -/
def layoutOf (l : SvgLabel) : List ((ℚ × ℚ) × String) :=
  l.elements.map (fun e =>
    match e with
    | SvgElement.image href ins _ => (ins, href)
    | SvgElement.text c ins _ _ => (ins, c))

/-- Renders a rational coordinate for serialisation. -/
def ratStr (q : ℚ) : String := toString q.num ++ "/" ++ toString q.den

/-- Serialises one SVG element (embeds the element's share of
`dwg.tostring()`; the claims depend only on this being per-element text). -/
def SvgElement.tostring : SvgElement → String
  | SvgElement.image href ins sz =>
      "<image href=" ++ href ++ " x=" ++ ratStr ins.1 ++ " y=" ++ ratStr ins.2
        ++ " w=" ++ ratStr sz.1 ++ " h=" ++ ratStr sz.2 ++ "/>"
  | SvgElement.text c ins fsz fill =>
      "<text x=" ++ ratStr ins.1 ++ " y=" ++ ratStr ins.2 ++ " font-size="
        ++ ratStr fsz ++ "px fill=" ++ fill ++ ">" ++ c ++ "</text>"

/-- Embeds `dwg.tostring()` (src/main.py line 302): one canvas, one string. -/
def SvgLabel.tostring (l : SvgLabel) : String :=
  "<svg width=" ++ ratStr l.size.1 ++ " height=" ++ ratStr l.size.2 ++ ">"
    ++ String.join (l.elements.map SvgElement.tostring) ++ "</svg>"

/-- The text lines added by the loop at src/main.py lines 292-299, one per
selected field in order: content `field ++ ": " ++ row.get(field, "N/A")`
at `(text_x, text_y + idx * (font_size + 2))`, starting from index `idx`
(`enumerate` starts the index at 0). -/
def mkTextLines (row : Record) : List String → ℕ → List SvgElement
  | [], _ => []
  | field :: rest, idx =>
      SvgElement.text (field ++ ": " ++ Record.getD row field "N/A")
        (text_x, text_y + (idx : ℚ) * (font_size + 2)) font_size "black"
        :: mkTextLines row rest (idx + 1)

/-- The drawing built for one row once the QR base64 is available
(src/main.py lines 276-299): a canvas of 3.8cm x 1.9cm holding the QR
image followed by the text lines. -/
def mkSvgLabel (qr_base64 : String) (row : Record) (selected_fields : List String) :
    SvgLabel :=
  { size := (3.8 * CM_TO_PIXELS, 1.9 * CM_TO_PIXELS),
    elements :=
      SvgElement.image ("data:image/png;base64," ++ qr_base64) (qr_x, qr_y)
        (qr_size, qr_size)
      :: mkTextLines row selected_fields 0 }

/-- The part of the per-row body after `row["lid"]` succeeded: encode the
identifier, then build the drawing; a library error propagates. -/
def composeWithLid (lid : String) (row : Record) (selected_fields : List String) :
    Except PyError SvgLabel :=
  match generate_qr_code_base64 lid with
  | Except.error e => Except.error e
  | Except.ok qr_base64 => Except.ok (mkSvgLabel qr_base64 row selected_fields)

/-- The body of the per-row loop of `create_svg_with_qr` (src/main.py lines
274-302): `row["lid"]` (a `KeyError` if the key is absent), then the QR
encoding, then the drawing. -/
def composeLabel (row : Record) (selected_fields : List String) :
    Except PyError SvgLabel :=
  match Record.get? row "lid" with
  | none => Except.error (PyError.keyError "lid")
  | some lid => composeWithLid lid row selected_fields

/-- Same computation as `composeLabel`, additionally returning the list of
payloads passed to `generate_qr_code_base64` (the encoder-call trace): the
encoder is invoked exactly when `row["lid"]` succeeded, with that value. -/
def composeLabelTraced (row : Record) (selected_fields : List String) :
    Except PyError SvgLabel × List String :=
  match Record.get? row "lid" with
  | none => (Except.error (PyError.keyError "lid"), [])
  | some lid =>
      match generate_qr_code_base64 lid with
      | Except.error e => (Except.error e, [lid])
      | Except.ok qr_base64 => (Except.ok (mkSvgLabel qr_base64 row selected_fields), [lid])

/-- Did the computation succeed (no exception)? -/
def exceptOk {α : Type} : Except PyError α → Bool
  | Except.ok _ => true
  | Except.error _ => false

/-- The i-th text line of a composition result, if any. -/
def textAt (e : Except PyError SvgLabel) (i : ℕ) : Option SvgElement :=
  match e with
  | Except.error _ => none
  | Except.ok l => (labelTexts l).get? i

/-- The `for row in csv_reader` loop of `create_svg_with_qr` (src/main.py
lines 274-302): one drawing per row, in row order; an exception in any row
propagates out of the loop (there is no handler around the body). -/
def render_rows (selected_fields : List String) :
    List Record → Except PyError (List SvgLabel)
  | [] => Except.ok []
  | row :: rest =>
      match composeLabel row selected_fields with
      | Except.error e => Except.error e
      | Except.ok lbl =>
          match render_rows selected_fields rest with
          | Except.error e => Except.error e
          | Except.ok lbls => Except.ok (lbl :: lbls)

/-- The `csv_file` argument of `create_svg_with_qr`.  The source accepts a
binary stream (`BytesIO`, decoded as UTF-8) or a text stream (`StringIO`,
read directly); both are then parsed by `csv.DictReader` — delimited-text
parsing is external to this program, so the constructors carry the parsed
rows.  `otherInput` embeds a value of any other Python type (its rows, if
it has any, are never read). -/
inductive InputFile
  | bytesInput (rows : List Record)
  | textInput (rows : List Record)
  | otherInput (rows : List Record)

/-- Embeds `create_svg_with_qr` (src/main.py lines 260-305): dispatch on the
input type (anything that is neither a binary nor a text stream raises
`ValueError("Unsupported file type")`), render one SVG canvas per row, and
join the serialised canvases with a newline. -/
def create_svg_with_qr (csv_file : InputFile) (selected_fields : List String) :
    Except PyError String :=
  match csv_file with
  | InputFile.bytesInput rows =>
      match render_rows selected_fields rows with
      | Except.error e => Except.error e
      | Except.ok lbls => Except.ok (String.intercalate "\n" (lbls.map SvgLabel.tostring))
  | InputFile.textInput rows =>
      match render_rows selected_fields rows with
      | Except.error e => Except.error e
      | Except.ok lbls => Except.ok (String.intercalate "\n" (lbls.map SvgLabel.tostring))
  | InputFile.otherInput _ => Except.error (PyError.valueError "Unsupported file type")

/-- A payload one byte past the byte-mode capacity of the largest QR symbol
(version 40, error-correction L): 2954 times the letter a. -/
def overflowPayload : String := String.mk (List.replicate 2954 'a')

/-! Helper lemmas: equation forms of the embedded functions, and facts about
the text-line builder and the row loop. -/

/-- Composition when the `lid` key is absent: `row["lid"]` raises. -/
theorem composeLabel_none (row : Record) (fs : List String)
    (h : Record.get? row "lid" = none) :
    composeLabel row fs = Except.error (PyError.keyError "lid") := by
  unfold composeLabel
  rw [h]

/-- Composition when the `lid` key is present. -/
theorem composeLabel_some (row : Record) (fs : List String) (lid : String)
    (h : Record.get? row "lid" = some lid) :
    composeLabel row fs = composeWithLid lid row fs := by
  unfold composeLabel
  rw [h]

/-- A failing encoding propagates out of the row body. -/
theorem composeWithLid_err (lid : String) (row : Record) (fs : List String)
    (e : PyError) (h : generate_qr_code_base64 lid = Except.error e) :
    composeWithLid lid row fs = Except.error e := by
  unfold composeWithLid
  rw [h]

/-- A successful encoding yields the drawing. -/
theorem composeWithLid_ok (lid : String) (row : Record) (fs : List String)
    (q : String) (h : generate_qr_code_base64 lid = Except.ok q) :
    composeWithLid lid row fs = Except.ok (mkSvgLabel q row fs) := by
  unfold composeWithLid
  rw [h]

/-- A payload within capacity encodes successfully. -/
theorem generate_ok (lid : String)
    (hcap : qrPayloadLen lid ≤ qrCapacity (qrMode lid)) :
    generate_qr_code_base64 lid = Except.ok (qrPngBase64 lid) := by
  unfold generate_qr_code_base64
  rw [if_neg (by omega)]

/-- `row.get(k, dflt)` falls back to the default when the key is absent. -/
theorem Record.getD_none (row : Record) (k dflt : String)
    (h : Record.get? row k = none) : Record.getD row k dflt = dflt := by
  unfold Record.getD
  rw [h]

/-- Within bounds, `l.get? i` returns the `getD` value. -/
theorem get?_getD (l : List String) (i : ℕ) (h : i < l.length) :
    l.get? i = some (l.getD i "") := by
  induction l generalizing i with
  | nil => exact absurd h (by simp)
  | cons a t ih =>
    cases i with
    | zero => rfl
    | succ j =>
      exact ih j (by simp at h; omega)

/-- The i-th element of the text-line list built from start index `idx`. -/
theorem mkTextLines_get? (row : Record) (fs : List String) (idx i : ℕ) :
    (mkTextLines row fs idx).get? i = (fs.get? i).map (fun f =>
      SvgElement.text (f ++ ": " ++ Record.getD row f "N/A")
        (text_x, text_y + ((idx + i : ℕ) : ℚ) * (font_size + 2)) font_size "black") := by
  induction fs generalizing idx i with
  | nil => rfl
  | cons f rest ih =>
    cases i with
    | zero => rfl
    | succ j =>
      have h : idx + 1 + j = idx + (j + 1) := by omega
      show (mkTextLines row rest (idx + 1)).get? j = _
      rw [ih (idx + 1) j, h]
      rfl

/-- One text line per selected field. -/
theorem mkTextLines_length (row : Record) (fs : List String) (idx : ℕ) :
    (mkTextLines row fs idx).length = fs.length := by
  induction fs generalizing idx with
  | nil => rfl
  | cons f rest ih => simp [mkTextLines, ih]

/-- Every built line is a text element. -/
theorem mkTextLines_filter_text (row : Record) (fs : List String) (idx : ℕ) :
    (mkTextLines row fs idx).filter SvgElement.isTextElem = mkTextLines row fs idx := by
  induction fs generalizing idx with
  | nil => rfl
  | cons f rest ih =>
    simp [mkTextLines, List.filter_cons, SvgElement.isTextElem, ih]

/-- No built line is an image element. -/
theorem mkTextLines_filter_image (row : Record) (fs : List String) (idx : ℕ) :
    (mkTextLines row fs idx).filter SvgElement.isImageElem = [] := by
  induction fs generalizing idx with
  | nil => rfl
  | cons f rest ih =>
    simp [mkTextLines, List.filter_cons, SvgElement.isImageElem, ih]

/-- The text elements of a composed drawing are exactly the built lines. -/
theorem labelTexts_mk (q : String) (row : Record) (fs : List String) :
    labelTexts (mkSvgLabel q row fs) = mkTextLines row fs 0 := by
  simp [labelTexts, mkSvgLabel, List.filter_cons, SvgElement.isTextElem,
    mkTextLines_filter_text]

/-- The image elements of a composed drawing: exactly the one QR image. -/
theorem labelImages_mk (q : String) (row : Record) (fs : List String) :
    labelImages (mkSvgLabel q row fs) =
      [SvgElement.image ("data:image/png;base64," ++ q) (qr_x, qr_y) (qr_size, qr_size)] := by
  simp [labelImages, mkSvgLabel, List.filter_cons, SvgElement.isImageElem,
    mkTextLines_filter_image]

/-- On a successful composition, the i-th text line is the i-th selected
field rendered as `field ++ ": " ++ value-or-default` at the i-th line slot. -/
theorem composeLabel_ok_textAt (r : Record) (fs : List String) (i : ℕ)
    (hi : i < fs.length) (hok : exceptOk (composeLabel r fs) = true) :
    textAt (composeLabel r fs) i =
      some (SvgElement.text ((fs.getD i "") ++ ": " ++ Record.getD r (fs.getD i "") "N/A")
        (text_x, text_y + (i : ℚ) * (font_size + 2)) font_size "black") := by
  cases hg : Record.get? r "lid" with
  | none =>
    rw [composeLabel_none r fs hg] at hok
    exact absurd hok (by simp [exceptOk])
  | some lid =>
    rw [composeLabel_some r fs lid hg] at hok ⊢
    cases he : generate_qr_code_base64 lid with
    | error e =>
      rw [composeWithLid_err lid r fs e he] at hok
      exact absurd hok (by simp [exceptOk])
    | ok q =>
      rw [composeWithLid_ok lid r fs q he]
      show (labelTexts (mkSvgLabel q r fs)).get? i = _
      rw [labelTexts_mk, mkTextLines_get? r fs 0 i, get?_getD fs i hi]
      simp

/-- Whether composition succeeds does not depend on the field selection. -/
theorem composeOk_indep (r : Record) (fs fs' : List String) :
    exceptOk (composeLabel r fs) = exceptOk (composeLabel r fs') := by
  cases hg : Record.get? r "lid" with
  | none =>
    rw [composeLabel_none r fs hg, composeLabel_none r fs' hg]
  | some lid =>
    rw [composeLabel_some r fs lid hg, composeLabel_some r fs' lid hg]
    cases he : generate_qr_code_base64 lid with
    | error e =>
      rw [composeWithLid_err lid r fs e he, composeWithLid_err lid r fs' e he]
    | ok q =>
      rw [composeWithLid_ok lid r fs q he, composeWithLid_ok lid r fs' q he]
      rfl

/-- Every successfully composed drawing is sized exactly to the label
geometry. -/
theorem composeLabel_size (r : Record) (fs : List String) (lbl : SvgLabel)
    (h : composeLabel r fs = Except.ok lbl) :
    lbl.size = (3.8 * CM_TO_PIXELS, 1.9 * CM_TO_PIXELS) := by
  cases hg : Record.get? r "lid" with
  | none =>
    rw [composeLabel_none r fs hg] at h
    exact absurd h (by simp)
  | some lid =>
    rw [composeLabel_some r fs lid hg] at h
    cases he : generate_qr_code_base64 lid with
    | error e =>
      rw [composeWithLid_err lid r fs e he] at h
      exact absurd h (by simp)
    | ok q =>
      rw [composeWithLid_ok lid r fs q he] at h
      have h2 : mkSvgLabel q r fs = lbl := by
        simpa using h
      rw [← h2]
      rfl

/-- A failing row body makes the whole loop fail with that error. -/
theorem render_rows_cons_err (fs : List String) (row : Record) (rest : List Record)
    (e : PyError) (h : composeLabel row fs = Except.error e) :
    render_rows fs (row :: rest) = Except.error e := by
  have h2 : render_rows fs (row :: rest) =
      match composeLabel row fs with
      | Except.error e => Except.error e
      | Except.ok lbl =>
          match render_rows fs rest with
          | Except.error e => Except.error e
          | Except.ok lbls => Except.ok (lbl :: lbls) := rfl
  rw [h2, h]

/-- A successful row body prepends its drawing to the rest of the loop. -/
theorem render_rows_cons_ok (fs : List String) (row : Record) (rest : List Record)
    (lbl : SvgLabel) (h : composeLabel row fs = Except.ok lbl) :
    render_rows fs (row :: rest) =
      match render_rows fs rest with
      | Except.error e => Except.error e
      | Except.ok lbls => Except.ok (lbl :: lbls) := by
  have h2 : render_rows fs (row :: rest) =
      match composeLabel row fs with
      | Except.error e => Except.error e
      | Except.ok lbl =>
          match render_rows fs rest with
          | Except.error e => Except.error e
          | Except.ok lbls => Except.ok (lbl :: lbls) := rfl
  rw [h2, h]

/-- A successful loop yields one drawing per row, each sized to the label
geometry, with the i-th drawing composed from the i-th row. -/
theorem render_rows_spec (fs : List String) (rows : List Record)
    (lbls : List SvgLabel) (h : render_rows fs rows = Except.ok lbls) :
    lbls.length = rows.length ∧
    (∀ lbl ∈ lbls, lbl.size = (3.8 * CM_TO_PIXELS, 1.9 * CM_TO_PIXELS)) ∧
    (∀ i, i < rows.length → ∃ lbl, lbls.get? i = some lbl ∧
      composeLabel (rows.getD i []) fs = Except.ok lbl) := by
  induction rows generalizing lbls with
  | nil =>
    have h2 : lbls = [] := by
      simpa [render_rows] using h.symm
    subst h2
    refine ⟨rfl, by simp, ?_⟩
    intro i hi
    exact absurd hi (by simp)
  | cons r rest ih =>
    cases hc : composeLabel r fs with
    | error e =>
      rw [render_rows_cons_err fs r rest e hc] at h
      exact absurd h (by simp)
    | ok lbl =>
      rw [render_rows_cons_ok fs r rest lbl hc] at h
      cases hr : render_rows fs rest with
      | error e =>
        rw [hr] at h
        exact absurd h (by simp)
      | ok ls =>
        rw [hr] at h
        have h2 : lbl :: ls = lbls := by simpa using h
        subst h2
        obtain ⟨ih1, ih2, ih3⟩ := ih ls hr
        refine ⟨by simp [ih1], ?_, ?_⟩
        · intro x hx
          rcases List.mem_cons.mp hx with hx | hx
          · subst hx
            exact composeLabel_size r fs x hc
          · exact ih2 x hx
        · intro i hi
          cases i with
          | zero => exact ⟨lbl, rfl, hc⟩
          | succ j =>
            obtain ⟨x, hget, hcomp⟩ := ih3 j (by simp at hi; omega)
            exact ⟨x, hget, hcomp⟩

/-! Facts about the over-capacity payload, proved symbolically (the payload
has 2954 characters, so they are not settled by evaluation). -/

/-- The UTF-8 length of `n` repetitions of the letter a is `n`. -/
theorem strUtf8Len_replicate_a (n : ℕ) :
    strUtf8Len (String.mk (List.replicate n 'a')) = n := by
  induction n with
  | zero => rfl
  | succ m ih =>
    show (List.map charUtf8Len (List.replicate (m + 1) 'a')).foldr (· + ·) 0 = m + 1
    rw [List.replicate_succ, List.map_cons, List.foldr_cons,
      show charUtf8Len 'a' = 1 from rfl]
    have ih2 : (List.map charUtf8Len (List.replicate m 'a')).foldr (· + ·) 0 = m := ih
    rw [ih2]
    omega

/-- The over-capacity payload has 2954 characters. -/
theorem overflowPayload_length : overflowPayload.length = 2954 := by
  show (List.replicate 2954 'a').length = 2954
  rw [List.length_replicate]

/-- The over-capacity payload is not the empty string. -/
theorem overflowPayload_ne_empty : overflowPayload ≠ "" := by
  intro h
  have h2 := congrArg String.length h
  rw [overflowPayload_length] at h2
  exact absurd h2 (by decide)

/-- A lowercase letter forces byte mode. -/
theorem qrMode_overflowPayload : qrMode overflowPayload = QrMode.byte := by
  have ht : overflowPayload.toList = 'a' :: List.replicate 2953 'a' := rfl
  have hd : ¬ (overflowPayload.length ≠ 0 ∧ overflowPayload.toList.all qrIsDigit) := by
    intro h
    have h2 := h.2
    rw [ht, List.all_cons, Bool.and_eq_true] at h2
    exact absurd h2.1 (by decide)
  have ha : ¬ (overflowPayload.toList.all qrAlphaNum = true) := by
    intro h
    rw [ht, List.all_cons, Bool.and_eq_true] at h
    exact absurd h.1 (by decide)
  unfold qrMode
  rw [if_neg hd, if_neg ha]

/-- The measured payload length of the over-capacity payload. -/
theorem qrPayloadLen_overflowPayload : qrPayloadLen overflowPayload = 2954 := by
  unfold qrPayloadLen
  rw [qrMode_overflowPayload]
  exact strUtf8Len_replicate_a 2954

/-- The over-capacity payload makes the encoder raise `DataOverflowError`
(2954 bytes exceed the 2953-byte capacity of a version-40 L symbol). -/
theorem generate_overflowPayload :
    generate_qr_code_base64 overflowPayload = Except.error PyError.dataOverflowError := by
  have h : qrPayloadLen overflowPayload > qrCapacity (qrMode overflowPayload) := by
    rw [qrPayloadLen_overflowPayload, qrMode_overflowPayload]
    decide
  unfold generate_qr_code_base64
  rw [if_pos h]

/-! The claims. -/

/-- C1 counterexample: the claim says a record whose composition fails is
skipped, recorded in a failure list, and processing continues with the
remaining records.  In the code there is no handler around the row loop: a
batch whose first record lacks `lid` (followed by a perfectly good record)
makes `create_svg_with_qr` raise `KeyError` and produce no output at all for
the remaining record — and no failure list exists anywhere. -/
theorem bad_record_aborts_batch_cex :
    create_svg_with_qr (InputFile.textInput [[("name", "x")], [("lid", "A")]]) ["name"] =
      Except.error (PyError.keyError "lid") := rfl

/-- C1 amended: when composing any record fails, that record's exception
propagates out of `create_svg_with_qr` and aborts the whole batch — records
before it contribute no output and records after it are not processed; there
is no skipping and no failure list. -/
theorem first_failure_aborts_batch (fs : List String) (pre post : List Record)
    (bad : Record) (e : PyError)
    (hpre : ∀ r ∈ pre, exceptOk (composeLabel r fs) = true)
    (hbad : composeLabel bad fs = Except.error e) :
    create_svg_with_qr (InputFile.textInput (pre ++ bad :: post)) fs = Except.error e := by
  have hrr : ∀ pre2 : List Record, (∀ r ∈ pre2, exceptOk (composeLabel r fs) = true) →
      render_rows fs (pre2 ++ bad :: post) = Except.error e := by
    intro pre2
    induction pre2 with
    | nil =>
      intro _
      rw [List.nil_append]
      exact render_rows_cons_err fs bad post e hbad
    | cons r rest ih =>
      intro hp
      have h1 := hp r (List.mem_cons_self r rest)
      obtain ⟨l, hl⟩ : ∃ l, composeLabel r fs = Except.ok l := by
        cases hcl : composeLabel r fs with
        | ok l => exact ⟨l, rfl⟩
        | error e2 =>
          rw [hcl] at h1
          exact absurd h1 (by simp [exceptOk])
      have ihh := ih (fun x hx => hp x (List.mem_cons_of_mem r hx))
      rw [List.cons_append, render_rows_cons_ok fs r (rest ++ bad :: post) l hl, ihh]
  have h2 := hrr pre hpre
  have h3 : create_svg_with_qr (InputFile.textInput (pre ++ bad :: post)) fs =
      match render_rows fs (pre ++ bad :: post) with
      | Except.error e => Except.error e
      | Except.ok lbls => Except.ok (String.intercalate "\n" (lbls.map SvgLabel.tostring)) := rfl
  rw [h3, h2]

/-- C1 witness: a concrete batch — a good record, then a record without
`lid`, then another good record — aborts with the middle record's error. -/
theorem first_failure_aborts_batch_witness :
    create_svg_with_qr
      (InputFile.textInput [[("lid", "A")], [("name", "x")], [("lid", "B")]]) ["name"] =
      Except.error (PyError.keyError "lid") :=
  first_failure_aborts_batch ["name"] [[("lid", "A")]] [[("lid", "B")]] [("name", "x")]
    (PyError.keyError "lid") (by decide) rfl

/-- C2 counterexample: the claim says a record whose `lid` is the empty
string fails with a missing-identifier error before the encoder is invoked.
In the code the empty `lid` is passed straight to
`generate_qr_code_base64` (the encoder-call trace contains the empty
payload) and the composition succeeds — the record is a success, not a
failure. -/
theorem empty_lid_reaches_encoder_cex :
    (composeLabelTraced [("lid", "")] []).2 = [""] ∧
    exceptOk (composeLabelTraced [("lid", "")] []).1 = true :=
  ⟨rfl, rfl⟩

/-- C2 amended: only when the `lid` key is absent does composition fail
before the encoder is invoked — `row["lid"]` raises `KeyError` and the
encoder-call trace is empty; this failure aborts the batch (see C1) rather
than being counted in a failure list.  A present-but-empty `lid` is passed
to the encoder. -/
theorem absent_lid_fails_before_encoder (row : Record) (fs : List String)
    (h : Record.get? row "lid" = none) :
    composeLabelTraced row fs = (Except.error (PyError.keyError "lid"), []) := by
  unfold composeLabelTraced
  rw [h]

/-- C2 witness: a concrete record without a `lid` key fails with `KeyError`
and an empty encoder-call trace. -/
theorem absent_lid_fails_before_encoder_witness :
    composeLabelTraced [("name", "x")] ["name"] =
      (Except.error (PyError.keyError "lid"), []) :=
  absent_lid_fails_before_encoder [("name", "x")] ["name"] rfl

/-- C3 counterexample: the claim quantifies over every record with a
non-empty `lid`; a record whose `lid` is 2954 bytes long (one past the
byte-mode capacity of the largest QR symbol) makes composition raise
`DataOverflowError` instead of producing a one-symbol label. -/
theorem overflow_lid_compose_fails_cex :
    overflowPayload ≠ "" ∧
    Record.get? [("lid", overflowPayload)] "lid" = some overflowPayload ∧
    composeLabel [("lid", overflowPayload)] ["name"] =
      Except.error PyError.dataOverflowError := by
  refine ⟨overflowPayload_ne_empty, rfl, ?_⟩
  rw [composeLabel_some [("lid", overflowPayload)] ["name"] overflowPayload rfl]
  exact composeWithLid_err overflowPayload [("lid", overflowPayload)] ["name"]
    PyError.dataOverflowError generate_overflowPayload

/-- C3 amended: for every record whose `lid` is non-empty and within the
maximum symbol capacity, and every field-selection list, composition
succeeds and the label holds exactly one embedded image element and exactly
`fieldSelection.length` text lines, the i-th line rendering the i-th
selected field. -/
theorem compose_counts_and_order (r : Record) (fs : List String) (lid : String)
    (hl : Record.get? r "lid" = some lid) (_hne : lid ≠ "")
    (hcap : qrPayloadLen lid ≤ qrCapacity (qrMode lid)) :
    ∃ lbl, composeLabel r fs = Except.ok lbl ∧
      (labelImages lbl).length = 1 ∧
      (labelTexts lbl).length = fs.length ∧
      (∀ i, i < fs.length → textAt (composeLabel r fs) i =
        some (SvgElement.text ((fs.getD i "") ++ ": " ++ Record.getD r (fs.getD i "") "N/A")
          (text_x, text_y + (i : ℚ) * (font_size + 2)) font_size "black")) := by
  have hg := generate_ok lid hcap
  have hc : composeLabel r fs = Except.ok (mkSvgLabel (qrPngBase64 lid) r fs) := by
    rw [composeLabel_some r fs lid hl]
    exact composeWithLid_ok lid r fs (qrPngBase64 lid) hg
  refine ⟨mkSvgLabel (qrPngBase64 lid) r fs, hc, ?_, ?_, ?_⟩
  · rw [labelImages_mk]
    rfl
  · rw [labelTexts_mk, mkTextLines_length]
  · intro i hi
    refine composeLabel_ok_textAt r fs i hi ?_
    rw [hc]
    rfl

/-- C3 witness: a concrete record with `lid` A and one selected field. -/
theorem compose_counts_and_order_witness :
    ∃ lbl, composeLabel [("lid", "A")] ["name"] = Except.ok lbl ∧
      (labelImages lbl).length = 1 ∧
      (labelTexts lbl).length = ["name"].length ∧
      (∀ i, i < ["name"].length → textAt (composeLabel [("lid", "A")] ["name"]) i =
        some (SvgElement.text ((["name"].getD i "") ++ ": " ++
            Record.getD [("lid", "A")] (["name"].getD i "") "N/A")
          (text_x, text_y + (i : ℚ) * (font_size + 2)) font_size "black")) :=
  compose_counts_and_order [("lid", "A")] ["name"] "A" rfl (by decide) (by decide)

/-- C4: a field selected for display but absent from the record's key set
renders as the literal N/A — the i-th line is `field ++ ": N/A"` — and a
missing display field never changes whether composition succeeds (success
depends only on the identifier, compare the empty selection). -/
theorem missing_field_renders_na (r : Record) (fs : List String) (i : ℕ)
    (hi : i < fs.length) (habs : Record.get? r (fs.getD i "") = none)
    (hok : exceptOk (composeLabel r fs) = true) :
    textAt (composeLabel r fs) i =
      some (SvgElement.text ((fs.getD i "") ++ ": " ++ "N/A")
        (text_x, text_y + (i : ℚ) * (font_size + 2)) font_size "black") ∧
    exceptOk (composeLabel r fs) = exceptOk (composeLabel r []) := by
  constructor
  · have h := composeLabel_ok_textAt r fs i hi hok
    rw [Record.getD_none r (fs.getD i "") "N/A" habs] at h
    exact h
  · exact composeOk_indep r fs []

/-- C4 witness: the selected field name is absent from the record, and its
line renders N/A. -/
theorem missing_field_renders_na_witness :
    textAt (composeLabel [("lid", "A")] ["name"]) 0 =
      some (SvgElement.text ((["name"].getD 0 "") ++ ": " ++ "N/A")
        (text_x, text_y + ((0 : ℕ) : ℚ) * (font_size + 2)) font_size "black") ∧
    exceptOk (composeLabel [("lid", "A")] ["name"]) =
      exceptOk (composeLabel [("lid", "A")] []) :=
  missing_field_renders_na [("lid", "A")] ["name"] 0 (by decide) rfl rfl

/-- C5: the i-th selected field is rendered as the text line
`field ++ ": " ++ value-or-N/A` at vertical position
`text_y + i * (font_size + 2)` — consecutive lines one line pitch
(`font_size + 2`) apart — and the text anchor `text_x` sits strictly to the
right of the symbol, at `qr_x + qr_size + 10`. -/
theorem text_line_layout (r : Record) (fs : List String) (i : ℕ)
    (hi : i < fs.length) (hok : exceptOk (composeLabel r fs) = true) :
    textAt (composeLabel r fs) i =
      some (SvgElement.text ((fs.getD i "") ++ ": " ++ Record.getD r (fs.getD i "") "N/A")
        (text_x, text_y + (i : ℚ) * (font_size + 2)) font_size "black") ∧
    text_x = qr_x + qr_size + 10 ∧
    qr_x + qr_size < text_x := by
  refine ⟨composeLabel_ok_textAt r fs i hi hok, rfl, ?_⟩
  unfold text_x
  linarith

/-- C5 witness: the first line of a concrete composition. -/
theorem text_line_layout_witness :
    textAt (composeLabel [("lid", "A")] ["name"]) 0 =
      some (SvgElement.text ((["name"].getD 0 "") ++ ": " ++
          Record.getD [("lid", "A")] (["name"].getD 0 "") "N/A")
        (text_x, text_y + ((0 : ℕ) : ℚ) * (font_size + 2)) font_size "black") ∧
    text_x = qr_x + qr_size + 10 ∧
    qr_x + qr_size < text_x :=
  text_line_layout [("lid", "A")] ["name"] 0 (by decide) rfl

/-- C6: on a successful batch, the vector sink holds one canvas per record,
each canvas sized exactly to the fixed 3.8cm x 1.9cm label geometry, with
the i-th canvas composed from the i-th record, and `create_svg_with_qr`
(for both stream kinds) returns the serialised canvases joined in record
order into one multi-canvas document. -/
theorem vector_sink_canvases (rows : List Record) (fs : List String)
    (lbls : List SvgLabel) (h : render_rows fs rows = Except.ok lbls) :
    lbls.length = rows.length ∧
    (∀ lbl ∈ lbls, lbl.size = (3.8 * CM_TO_PIXELS, 1.9 * CM_TO_PIXELS)) ∧
    (∀ i, i < rows.length → ∃ lbl, lbls.get? i = some lbl ∧
      composeLabel (rows.getD i []) fs = Except.ok lbl) ∧
    create_svg_with_qr (InputFile.textInput rows) fs =
      Except.ok (String.intercalate "\n" (lbls.map SvgLabel.tostring)) ∧
    create_svg_with_qr (InputFile.bytesInput rows) fs =
      Except.ok (String.intercalate "\n" (lbls.map SvgLabel.tostring)) := by
  obtain ⟨h1, h2, h3⟩ := render_rows_spec fs rows lbls h
  refine ⟨h1, h2, h3, ?_, ?_⟩
  · have h4 : create_svg_with_qr (InputFile.textInput rows) fs =
        match render_rows fs rows with
        | Except.error e => Except.error e
        | Except.ok lbls => Except.ok (String.intercalate "\n" (lbls.map SvgLabel.tostring)) := rfl
    rw [h4, h]
  · have h4 : create_svg_with_qr (InputFile.bytesInput rows) fs =
        match render_rows fs rows with
        | Except.error e => Except.error e
        | Except.ok lbls => Except.ok (String.intercalate "\n" (lbls.map SvgLabel.tostring)) := rfl
    rw [h4, h]

/-- C6 witness: a concrete two-record batch yields two fixed-size canvases
joined into one document. -/
theorem vector_sink_canvases_witness :
    ∃ lbls : List SvgLabel,
      render_rows ["name"] [[("lid", "A")], [("lid", "B")]] = Except.ok lbls ∧
      lbls.length = 2 ∧
      (∀ lbl ∈ lbls, lbl.size = (3.8 * CM_TO_PIXELS, 1.9 * CM_TO_PIXELS)) ∧
      create_svg_with_qr (InputFile.textInput [[("lid", "A")], [("lid", "B")]]) ["name"] =
        Except.ok (String.intercalate "\n" (lbls.map SvgLabel.tostring)) := by
  refine ⟨[mkSvgLabel (qrPngBase64 "A") [("lid", "A")] ["name"],
           mkSvgLabel (qrPngBase64 "B") [("lid", "B")] ["name"]], rfl, ?_, ?_, ?_⟩
  · exact (vector_sink_canvases [[("lid", "A")], [("lid", "B")]] ["name"] _ rfl).1
  · exact (vector_sink_canvases [[("lid", "A")], [("lid", "B")]] ["name"] _ rfl).2.1
  · exact (vector_sink_canvases [[("lid", "A")], [("lid", "B")]] ["name"] _ rfl).2.2.2.1

/-- C7 counterexample: the claim says the encoder fails whenever its payload
is the empty string; in fact `generate_qr_code_base64` accepts the empty
payload (the `qrcode` library happily encodes it) and returns an asset. -/
theorem empty_payload_encodes_cex :
    generate_qr_code_base64 "" = Except.ok (qrPngBase64 "") ∧
    exceptOk (generate_qr_code_base64 "") = true :=
  ⟨rfl, rfl⟩

/-- C7 amended: the encoder fails — with the library's `DataOverflowError`,
no dedicated EncodingError exists — exactly when the payload exceeds the
maximum symbol capacity; every other payload, the empty string included,
yields a symbol asset. -/
theorem encoder_fails_iff_overflow (s : String) :
    (generate_qr_code_base64 s = Except.error PyError.dataOverflowError ↔
      qrCapacity (qrMode s) < qrPayloadLen s) ∧
    (qrPayloadLen s ≤ qrCapacity (qrMode s) →
      generate_qr_code_base64 s = Except.ok (qrPngBase64 s)) := by
  by_cases h : qrCapacity (qrMode s) < qrPayloadLen s
  · have hg : generate_qr_code_base64 s = Except.error PyError.dataOverflowError := by
      unfold generate_qr_code_base64
      rw [if_pos h]
    exact ⟨⟨fun _ => h, fun _ => hg⟩, fun h2 => absurd h (by omega)⟩
  · have hg : generate_qr_code_base64 s = Except.ok (qrPngBase64 s) := by
      unfold generate_qr_code_base64
      rw [if_neg h]
    refine ⟨⟨fun he => ?_, fun hlt => absurd hlt h⟩, fun _ => hg⟩
    rw [hg] at he
    exact absurd he (by simp)

/-- C7 witness: the amended characterisation at the one-letter payload A. -/
theorem encoder_fails_iff_overflow_witness :
    (generate_qr_code_base64 "A" = Except.error PyError.dataOverflowError ↔
      qrCapacity (qrMode "A") < qrPayloadLen "A") ∧
    (qrPayloadLen "A" ≤ qrCapacity (qrMode "A") →
      generate_qr_code_base64 "A" = Except.ok (qrPngBase64 "A")) :=
  encoder_fails_iff_overflow "A"

/-- C8: composition is deterministic — composing equal records with equal
field selections (the geometry is the fixed constant set) yields equal
results, in particular layout-equivalent labels: identical symbol position
and bytes and identical text-line positions and contents. -/
theorem compose_deterministic (r1 r2 : Record) (fs1 fs2 : List String)
    (hr : r1 = r2) (hf : fs1 = fs2) :
    composeLabel r1 fs1 = composeLabel r2 fs2 ∧
    Except.map layoutOf (composeLabel r1 fs1) =
      Except.map layoutOf (composeLabel r2 fs2) := by
  subst hr
  subst hf
  exact ⟨rfl, rfl⟩

/-- C8 witness: determinism at a concrete record and selection. -/
theorem compose_deterministic_witness :
    composeLabel [("lid", "A")] ["name"] = composeLabel [("lid", "A")] ["name"] ∧
    Except.map layoutOf (composeLabel [("lid", "A")] ["name"]) =
      Except.map layoutOf (composeLabel [("lid", "A")] ["name"]) :=
  compose_deterministic [("lid", "A")] [("lid", "A")] ["name"] ["name"] rfl rfl

/-- C9: an input that is neither a binary stream nor a text stream makes
`create_svg_with_qr` raise `ValueError("Unsupported file type")` — whatever
rows the object might carry, none is read and no output is produced. -/
theorem unsupported_input_value_error (rows : List Record) (fs : List String) :
    create_svg_with_qr (InputFile.otherInput rows) fs =
      Except.error (PyError.valueError "Unsupported file type") := rfl

/-- C10 counterexample: the claim quantifies over every record carrying a
`lid` value; a record whose `lid` is 2954 bytes long fails with
`DataOverflowError` even under the empty field selection. -/
theorem overflow_lid_empty_selection_cex :
    Record.get? [("lid", overflowPayload)] "lid" = some overflowPayload ∧
    composeLabel [("lid", overflowPayload)] [] =
      Except.error PyError.dataOverflowError := by
  refine ⟨rfl, ?_⟩
  rw [composeLabel_some [("lid", overflowPayload)] [] overflowPayload rfl]
  exact composeWithLid_err overflowPayload [("lid", overflowPayload)] []
    PyError.dataOverflowError generate_overflowPayload

/-- C10 amended: for every record whose `lid` value is within the maximum
symbol capacity (the empty string included), composing with the empty field
selection succeeds, with exactly one embedded image element and zero text
lines. -/
theorem empty_selection_composes (r : Record) (lid : String)
    (hl : Record.get? r "lid" = some lid)
    (hcap : qrPayloadLen lid ≤ qrCapacity (qrMode lid)) :
    ∃ lbl, composeLabel r [] = Except.ok lbl ∧
      (labelImages lbl).length = 1 ∧ labelTexts lbl = [] := by
  have hg := generate_ok lid hcap
  have hc : composeLabel r [] = Except.ok (mkSvgLabel (qrPngBase64 lid) r []) := by
    rw [composeLabel_some r [] lid hl]
    exact composeWithLid_ok lid r [] (qrPngBase64 lid) hg
  refine ⟨mkSvgLabel (qrPngBase64 lid) r [], hc, ?_, ?_⟩
  · rw [labelImages_mk]
    rfl
  · rw [labelTexts_mk]
    rfl

/-- C10 witness: the record whose `lid` is the empty string composes under
the empty selection into one image and no text lines. -/
theorem empty_selection_composes_witness :
    ∃ lbl, composeLabel [("lid", "")] [] = Except.ok lbl ∧
      (labelImages lbl).length = 1 ∧ labelTexts lbl = [] :=
  empty_selection_composes [("lid", "")] "" rfl (by decide)
